import Mathlib

/-!
Shallow embedding of `src/assignment0.js`: a small retained-mode WebGL2 shape
renderer (classes `Shape`, `Triangle`, `WebGlApp`).  The WebGL2 device is
modelled as an explicit state (`GLState`) carrying a fresh-handle counter, the
three binding slots the file touches (ARRAY_BUFFER, ELEMENT_ARRAY_BUFFER and
the current vertex array object), and the ordered trace of device commands
issued so far.  Each JS method becomes a Lean function threading `GLState`.
Floating-point scalars are idealised as real numbers.
-/

set_option maxHeartbeats 1000000
set_option linter.unusedVariables false

namespace Assignment0

/-- WebGL buffer-binding targets used by the source file. -/
inductive BufferTarget where
  | arrayBuffer
  | elementArrayBuffer
deriving DecidableEq

/-- Draw modes that appear in the source (gl.TRIANGLES and gl.POINTS). -/
inductive DrawMode where
  | triangles
  | points
deriving DecidableEq

/-- Index element types; the source only ever draws with gl.UNSIGNED_SHORT. -/
inductive IndexType where
  | unsignedShort
deriving DecidableEq

/-- One WebGL2 device command, as issued by the source file.  `deleteBuffer`
and `deleteVertexArray` are part of the device vocabulary (resource release)
but are never emitted by the source. -/
inductive GLCmd where
  | viewport (x y w h : Int)
  | clearColor (r g b a : ℝ)
  | clear
  | createBuffer (id : ℕ)
  | createVertexArray (id : ℕ)
  | deleteBuffer (id : ℕ)
  | deleteVertexArray (id : ℕ)
  | bindBuffer (target : BufferTarget) (buf : Option ℕ)
  | bindVertexArray (vao : Option ℕ)
  | bufferDataF32 (target : BufferTarget) (data : List ℝ)
  | bufferDataU16 (target : BufferTarget) (data : List ℕ)
  | enableVertexAttribArray (loc : ℕ)
  | vertexAttribPointer (loc size : ℕ)
  | uniform3fv (loc : ℕ) (value : List ℝ)
  | drawElements (mode : DrawMode) (count : ℕ) (ty : IndexType)

/-- The modelled WebGL2 device: fresh handle counter, the binding slots the
source file touches, and the ordered command trace. -/
structure GLState where
  nextId : ℕ
  boundArray : Option ℕ
  boundElement : Option ℕ
  boundVAO : Option ℕ
  trace : List GLCmd

/-- A fresh device: no resources, nothing bound, empty trace. -/
def GLState.init : GLState := ⟨0, none, none, none, []⟩

/-- Append one command to the device trace. -/
def GLState.emit (s : GLState) (c : GLCmd) : GLState :=
  { s with trace := s.trace ++ [c] }

/-- gl.createBuffer(): allocates a fresh buffer handle. -/
def glCreateBuffer (s : GLState) : ℕ × GLState :=
  (s.nextId, { s.emit (GLCmd.createBuffer s.nextId) with nextId := s.nextId + 1 })

/-- gl.createVertexArray(): allocates a fresh vertex-array-object handle. -/
def glCreateVertexArray (s : GLState) : ℕ × GLState :=
  (s.nextId, { s.emit (GLCmd.createVertexArray s.nextId) with nextId := s.nextId + 1 })

/-- gl.bindBuffer(target, buf): records the command and updates the
corresponding binding slot (`none` models binding to null). -/
def glBindBuffer (target : BufferTarget) (buf : Option ℕ) (s : GLState) : GLState :=
  match target with
  | BufferTarget.arrayBuffer =>
      { s.emit (GLCmd.bindBuffer target buf) with boundArray := buf }
  | BufferTarget.elementArrayBuffer =>
      { s.emit (GLCmd.bindBuffer target buf) with boundElement := buf }

/-- gl.bindVertexArray(vao). -/
def glBindVertexArray (vao : Option ℕ) (s : GLState) : GLState :=
  { s.emit (GLCmd.bindVertexArray vao) with boundVAO := vao }

/-- gl.bufferData with a Float32Array payload. -/
def glBufferDataF32 (target : BufferTarget) (data : List ℝ) (s : GLState) : GLState :=
  s.emit (GLCmd.bufferDataF32 target data)

/-- gl.bufferData with a Uint16Array payload. -/
def glBufferDataU16 (target : BufferTarget) (data : List ℕ) (s : GLState) : GLState :=
  s.emit (GLCmd.bufferDataU16 target data)

/-- gl.enableVertexAttribArray(loc). -/
def glEnableVertexAttribArray (loc : ℕ) (s : GLState) : GLState :=
  s.emit (GLCmd.enableVertexAttribArray loc)

/-- gl.vertexAttribPointer(loc, size, gl.FLOAT, false, 0, 0). -/
def glVertexAttribPointer (loc size : ℕ) (s : GLState) : GLState :=
  s.emit (GLCmd.vertexAttribPointer loc size)

/-- gl.uniform3fv(loc, value). -/
def glUniform3fv (loc : ℕ) (v : List ℝ) (s : GLState) : GLState :=
  s.emit (GLCmd.uniform3fv loc v)

/-- gl.drawElements(mode, count, type, 0). -/
def glDrawElements (mode : DrawMode) (count : ℕ) (ty : IndexType) (s : GLState) : GLState :=
  s.emit (GLCmd.drawElements mode count ty)

/-- gl.viewport(x, y, w, h). -/
def glViewport (x y w h : Int) (s : GLState) : GLState :=
  s.emit (GLCmd.viewport x y w h)

/-- gl.clearColor(r, g, b, a). -/
def glClearColor (r g b a : ℝ) (s : GLState) : GLState :=
  s.emit (GLCmd.clearColor r g b a)

/-- gl.clear(gl.COLOR_BUFFER_BIT). -/
def glClear (s : GLState) : GLState :=
  s.emit GLCmd.clear

/-- A compiled shader program handle (the `Shader` collaborator is external;
the source only reads `shader.program`). -/
structure Shader where
  program : ℕ

/-- gl.getAttribLocation: attribute locations are device-chosen opaque values;
the model fixes an arbitrary one.  No claim depends on the value. -/
def glGetAttribLocation (program : ℕ) (name : String) : ℕ := 0

/-- gl.getUniformLocation, modelled like `glGetAttribLocation`. -/
def glGetUniformLocation (program : ℕ) (name : String) : ℕ := 0

/-- The `Shape` record: the fields assigned by the JS `Shape` constructor. -/
structure Shape where
  shader : Shader
  vertices : List ℝ
  vertices_buffer : ℕ
  indices : List ℕ
  index_buffer : ℕ
  color : List ℝ
  draw_mode : DrawMode
  num_components : ℕ
  num_elements : ℕ
  vertex_array_object : ℕ

/-- `Shape.createVBO`: create a buffer, bind it to ARRAY_BUFFER, upload the
vertex data as a Float32Array, unbind. -/
def Shape.createVBO (vertices : List ℝ) (s : GLState) : ℕ × GLState :=
  let (buf, s1) := glCreateBuffer s
  let s2 := glBindBuffer BufferTarget.arrayBuffer (some buf) s1
  let s3 := glBufferDataF32 BufferTarget.arrayBuffer vertices s2
  let s4 := glBindBuffer BufferTarget.arrayBuffer none s3
  (buf, s4)

/-- `Shape.createIBO`: create a buffer, bind it to ELEMENT_ARRAY_BUFFER,
upload the indices as a Uint16Array — the JS `new Uint16Array(this.indices)`
conversion reduces every element modulo 2^16 — then unbind. -/
def Shape.createIBO (indices : List ℕ) (s : GLState) : ℕ × GLState :=
  let (buf, s1) := glCreateBuffer s
  let s2 := glBindBuffer BufferTarget.elementArrayBuffer (some buf) s1
  let s3 := glBufferDataU16 BufferTarget.elementArrayBuffer
      (indices.map (fun i => i % 65536)) s2
  let s4 := glBindBuffer BufferTarget.elementArrayBuffer none s3
  (buf, s4)

/-- `Shape.createVAO`: create and bind a VAO, look up and enable the
`a_position` attribute, bind the VBO and describe its layout, then unbind
both the buffer and the VAO. -/
def Shape.createVAO (shader : Shader) (vertices_buffer num_components : ℕ)
    (s : GLState) : ℕ × GLState :=
  let (vao, s1) := glCreateVertexArray s
  let s2 := glBindVertexArray (some vao) s1
  let loc := glGetAttribLocation shader.program "a_position"
  let s3 := glEnableVertexAttribArray loc s2
  let s4 := glBindBuffer BufferTarget.arrayBuffer (some vertices_buffer) s3
  let s5 := glVertexAttribPointer loc num_components s4
  let s6 := glBindBuffer BufferTarget.arrayBuffer none s5
  let s7 := glBindVertexArray none s6
  (vao, s7)

/-- The JS `Shape` constructor: stores the fields and unconditionally creates
the VBO, the IBO and the VAO, in that order.  `num_components` is the
hardcoded 2.  There is no validation of any argument. -/
def Shape.construct (gl0 : GLState) (shader : Shader) (vertices : List ℝ)
    (indices : List ℕ) (color : List ℝ) (draw_mode : DrawMode)
    (num_elements : ℕ) : Shape × GLState :=
  let (vbo, s1) := Shape.createVBO vertices gl0
  let (ibo, s2) := Shape.createIBO indices s1
  let (vao, s3) := Shape.createVAO shader vbo 2 s2
  (⟨shader, vertices, vbo, indices, ibo, color, draw_mode, 2, num_elements, vao⟩, s3)

/-- `Shape.render(gl)`: bind the VAO and the index buffer, upload the color
uniform, draw with UNSIGNED_SHORT indices, then unbind both. -/
def Shape.render (sh : Shape) (s : GLState) : GLState :=
  let s1 := glBindVertexArray (some sh.vertex_array_object) s
  let s2 := glBindBuffer BufferTarget.elementArrayBuffer (some sh.index_buffer) s1
  let loc := glGetUniformLocation sh.shader.program "u_color"
  let s3 := glUniform3fv loc sh.color s2
  let s4 := glDrawElements sh.draw_mode sh.num_elements IndexType.unsignedShort s3
  let s5 := glBindBuffer BufferTarget.elementArrayBuffer none s4
  let s6 := glBindVertexArray none s5
  s6

/-- Modelled from the spec: the angle-conversion helper `deg2rad` lives in the
excluded `./js/utils/utils.js` module; the spec describes it as the standard
degree-to-radian conversion. -/
noncomputable def deg2rad (deg : ℝ) : ℝ := deg * Real.pi / 180

/-- The JS `Triangle` constructor: computes cos/sin of 30 degrees, derives the
three vertices of an upward-pointing equilateral triangle around `position`,
uses indices [0,1,2], and calls the `Shape` constructor with gl.TRIANGLES and
`indices.length` elements. -/
noncomputable def Triangle.construct (gl0 : GLState) (shader : Shader)
    (position : ℝ × ℝ) (color : List ℝ) (sideLength : ℝ) : Shape × GLState :=
  let cosangle := Real.cos (deg2rad 30)
  let sinangle := Real.sin (deg2rad 30)
  let vertices : List ℝ :=
    [position.1, position.2 - sideLength,
     position.1 + sideLength * cosangle, position.2 + sideLength * sinangle,
     position.1 - sideLength * cosangle, position.2 + sideLength * sinangle]
  let indices : List ℕ := [0, 1, 2]
  Shape.construct gl0 shader vertices indices color DrawMode.triangles indices.length

/-- Modelled from the spec: `hex2rgb` (from the excluded utils module)
normalises a hex color to a triple of floats in [0,1].  This is its value at
the literal '#022851' (Aggie Blue), the fixed background color. -/
noncomputable def aggieBlue : List ℝ := [2 / 255, 40 / 255, 81 / 255]

/-- Modelled from the spec: `hex2rgb` at the literal '#FFBF00' (Aggie Gold),
the fixed fill color used by `addTriangle`. -/
noncomputable def aggieGold : List ℝ := [255 / 255, 191 / 255, 0 / 255]

/-- The `WebGlApp` state: the ordered list of stored shapes. -/
structure WebGlApp where
  shapes : List Shape

/-- The JS `WebGlApp` constructor: an empty shape list. -/
def WebGlApp.new : WebGlApp := ⟨[]⟩

/-- `WebGlApp.setViewport(gl, width, height)`: gl.viewport(0, 0, w, h). -/
def WebGlApp.setViewport (w h : Int) (s : GLState) : GLState :=
  glViewport 0 0 w h s

/-- `WebGlApp.clearCanvas(gl)`: set the clear color to Aggie Blue with alpha 1
and clear the color buffer. -/
noncomputable def WebGlApp.clearCanvas (s : GLState) : GLState :=
  let color := aggieBlue
  glClear (glClearColor (color.getD 0 0) (color.getD 1 0) (color.getD 2 0) 1 s)

/-- `WebGlApp.addTriangle(gl, shader, position, sideLength)`: construct a
`Triangle` with the fixed Aggie Gold fill color and push it onto `shapes`. -/
noncomputable def WebGlApp.addTriangle (app : WebGlApp) (gl0 : GLState)
    (shader : Shader) (position : ℝ × ℝ) (sideLength : ℝ) : WebGlApp × GLState :=
  let color := aggieGold
  let (triangle, s1) := Triangle.construct gl0 shader position color sideLength
  (⟨app.shapes ++ [triangle]⟩, s1)

/-- `WebGlApp.clearShapes()`: `this.shapes = []`.  The method receives no
device handle and issues no device command. -/
def WebGlApp.clearShapes (app : WebGlApp) : WebGlApp := ⟨[]⟩

/-- The `for (const shape of this.shapes) shape.render(gl)` loop. -/
def renderShapes : List Shape → GLState → GLState
  | [], s => s
  | sh :: rest, s => renderShapes rest (Shape.render sh s)

/-- `WebGlApp.render(gl, canvas_width, canvas_height)`: set the viewport,
clear the canvas, then render every stored shape in order. -/
noncomputable def WebGlApp.render (app : WebGlApp) (w h : Int) (s : GLState) : GLState :=
  let s1 := WebGlApp.setViewport w h s
  let s2 := WebGlApp.clearCanvas s1
  renderShapes app.shapes s2

/-- The public operations a driver can perform on a `WebGlApp`. -/
inductive AppOp where
  | addTriangle (shader : Shader) (position : ℝ × ℝ) (sideLength : ℝ)
  | clearShapes
  | render (w h : Int)

/-- One driver step: how each public operation acts on the app and device. -/
noncomputable def applyOp : WebGlApp × GLState → AppOp → WebGlApp × GLState
  | (app, s), AppOp.addTriangle shader position sideLength =>
      app.addTriangle s shader position sideLength
  | (app, s), AppOp.clearShapes => (app.clearShapes, s)
  | (app, s), AppOp.render w h => (app, app.render w h s)

/-- Run a sequence of driver operations from a fresh app and device. -/
noncomputable def runOps (ops : List AppOp) : WebGlApp × GLState :=
  ops.foldl applyOp (WebGlApp.new, GLState.init)

/-! ## Trace and binding lemmas for the individual operations -/

/-- The commands `Shape.render` emits, as a function of the shape. -/
def Shape.renderTrace (sh : Shape) : List GLCmd :=
  [GLCmd.bindVertexArray (some sh.vertex_array_object),
   GLCmd.bindBuffer BufferTarget.elementArrayBuffer (some sh.index_buffer),
   GLCmd.uniform3fv (glGetUniformLocation sh.shader.program "u_color") sh.color,
   GLCmd.drawElements sh.draw_mode sh.num_elements IndexType.unsignedShort,
   GLCmd.bindBuffer BufferTarget.elementArrayBuffer none,
   GLCmd.bindVertexArray none]

theorem Shape.render_state (sh : Shape) (s : GLState) :
    Shape.render sh s =
      ⟨s.nextId, s.boundArray, none, none, s.trace ++ Shape.renderTrace sh⟩ := by
  simp [Shape.render, Shape.renderTrace, glBindVertexArray, glBindBuffer,
    glUniform3fv, glDrawElements, GLState.emit]

/-- The commands one `Shape.createVBO` call emits, given the entry fresh id. -/
def createVBOTrace (vertices : List ℝ) (id : ℕ) : List GLCmd :=
  [GLCmd.createBuffer id,
   GLCmd.bindBuffer BufferTarget.arrayBuffer (some id),
   GLCmd.bufferDataF32 BufferTarget.arrayBuffer vertices,
   GLCmd.bindBuffer BufferTarget.arrayBuffer none]

theorem Shape.createVBO_state (vertices : List ℝ) (s : GLState) :
    Shape.createVBO vertices s =
      (s.nextId, ⟨s.nextId + 1, none, s.boundElement, s.boundVAO,
        s.trace ++ createVBOTrace vertices s.nextId⟩) := by
  simp [Shape.createVBO, createVBOTrace, glCreateBuffer, glBindBuffer,
    glBufferDataF32, GLState.emit]

/-- The commands one `Shape.createIBO` call emits, given the entry fresh id.
The uploaded payload is the Uint16Array image of the indices. -/
def createIBOTrace (indices : List ℕ) (id : ℕ) : List GLCmd :=
  [GLCmd.createBuffer id,
   GLCmd.bindBuffer BufferTarget.elementArrayBuffer (some id),
   GLCmd.bufferDataU16 BufferTarget.elementArrayBuffer (indices.map (fun i => i % 65536)),
   GLCmd.bindBuffer BufferTarget.elementArrayBuffer none]

theorem Shape.createIBO_state (indices : List ℕ) (s : GLState) :
    Shape.createIBO indices s =
      (s.nextId, ⟨s.nextId + 1, s.boundArray, none, s.boundVAO,
        s.trace ++ createIBOTrace indices s.nextId⟩) := by
  simp [Shape.createIBO, createIBOTrace, glCreateBuffer, glBindBuffer,
    glBufferDataU16, GLState.emit]

/-- The commands one `Shape.createVAO` call emits. -/
def createVAOTrace (shader : Shader) (vertices_buffer num_components id : ℕ) :
    List GLCmd :=
  [GLCmd.createVertexArray id,
   GLCmd.bindVertexArray (some id),
   GLCmd.enableVertexAttribArray (glGetAttribLocation shader.program "a_position"),
   GLCmd.bindBuffer BufferTarget.arrayBuffer (some vertices_buffer),
   GLCmd.vertexAttribPointer (glGetAttribLocation shader.program "a_position") num_components,
   GLCmd.bindBuffer BufferTarget.arrayBuffer none,
   GLCmd.bindVertexArray none]

theorem Shape.createVAO_state (shader : Shader) (vertices_buffer num_components : ℕ)
    (s : GLState) :
    Shape.createVAO shader vertices_buffer num_components s =
      (s.nextId, ⟨s.nextId + 1, none, s.boundElement, none,
        s.trace ++ createVAOTrace shader vertices_buffer num_components s.nextId⟩) := by
  simp [Shape.createVAO, createVAOTrace, glCreateVertexArray, glBindVertexArray,
    glEnableVertexAttribArray, glBindBuffer, glVertexAttribPointer, GLState.emit]

/-- The commands one `Shape` construction emits, given the entry fresh id. -/
def constructTrace (shader : Shader) (vertices : List ℝ) (indices : List ℕ)
    (id : ℕ) : List GLCmd :=
  createVBOTrace vertices id ++ createIBOTrace indices (id + 1) ++
    createVAOTrace shader id 2 (id + 2)

theorem Shape.construct_state (gl0 : GLState) (shader : Shader) (vertices : List ℝ)
    (indices : List ℕ) (color : List ℝ) (draw_mode : DrawMode) (num_elements : ℕ) :
    Shape.construct gl0 shader vertices indices color draw_mode num_elements =
      (⟨shader, vertices, gl0.nextId, indices, gl0.nextId + 1, color, draw_mode, 2,
        num_elements, gl0.nextId + 2⟩,
       ⟨gl0.nextId + 3, none, none, none,
        gl0.trace ++ constructTrace shader vertices indices gl0.nextId⟩) := by
  simp [Shape.construct, Shape.createVBO_state, Shape.createIBO_state,
    Shape.createVAO_state, constructTrace]

theorem renderShapes_state (shs : List Shape) (s : GLState) :
    renderShapes shs s =
      ⟨s.nextId, s.boundArray,
       (if shs.isEmpty then s.boundElement else none),
       (if shs.isEmpty then s.boundVAO else none),
       s.trace ++ (shs.map Shape.renderTrace).flatten⟩ := by
  induction shs generalizing s with
  | nil => simp [renderShapes]
  | cons sh rest ih =>
      simp [renderShapes, Shape.render_state, ih, List.isEmpty]

/-- The commands one `WebGlApp.render` frame emits. -/
noncomputable def frameTrace (app : WebGlApp) (w h : Int) : List GLCmd :=
  [GLCmd.viewport 0 0 w h,
   GLCmd.clearColor (aggieBlue.getD 0 0) (aggieBlue.getD 1 0) (aggieBlue.getD 2 0) 1,
   GLCmd.clear] ++ (app.shapes.map Shape.renderTrace).flatten

theorem appRender_state (app : WebGlApp) (w h : Int) (s : GLState) :
    app.render w h s =
      ⟨s.nextId, s.boundArray,
       (if app.shapes.isEmpty then s.boundElement else none),
       (if app.shapes.isEmpty then s.boundVAO else none),
       s.trace ++ frameTrace app w h⟩ := by
  simp [WebGlApp.render, WebGlApp.setViewport, WebGlApp.clearCanvas, glViewport,
    glClearColor, glClear, GLState.emit, renderShapes_state, frameTrace]

/-! ## Triangle geometry -/

theorem deg2rad_30 : deg2rad 30 = Real.pi / 6 := by
  unfold deg2rad; ring

theorem cos_deg2rad_30 : Real.cos (deg2rad 30) = Real.sqrt 3 / 2 := by
  rw [deg2rad_30, Real.cos_pi_div_six]

theorem sin_deg2rad_30 : Real.sin (deg2rad 30) = 1 / 2 := by
  rw [deg2rad_30, Real.sin_pi_div_six]

/-- The vertex list the `Triangle` constructor builds, with the trigonometric
constants evaluated. -/
noncomputable def triVertices (position : ℝ × ℝ) (sideLength : ℝ) : List ℝ :=
  [position.1, position.2 - sideLength,
   position.1 + sideLength * (Real.sqrt 3 / 2), position.2 + sideLength * (1 / 2),
   position.1 - sideLength * (Real.sqrt 3 / 2), position.2 + sideLength * (1 / 2)]

theorem triangleConstruct_state (gl0 : GLState) (shader : Shader)
    (position : ℝ × ℝ) (color : List ℝ) (sideLength : ℝ) :
    Triangle.construct gl0 shader position color sideLength =
      (⟨shader, triVertices position sideLength, gl0.nextId, [0, 1, 2],
        gl0.nextId + 1, color, DrawMode.triangles, 2, 3, gl0.nextId + 2⟩,
       ⟨gl0.nextId + 3, none, none, none,
        gl0.trace ++
          constructTrace shader (triVertices position sideLength) [0, 1, 2] gl0.nextId⟩) := by
  simp [Triangle.construct, Shape.construct_state, triVertices,
    cos_deg2rad_30, sin_deg2rad_30]

/-- The i-th 2D vertex stored in a shape's flat vertex list. -/
noncomputable def vertexAt (sh : Shape) (i : ℕ) : ℝ × ℝ :=
  (sh.vertices.getD (2 * i) 0, sh.vertices.getD (2 * i + 1) 0)

/-- Euclidean distance between two 2D points. -/
noncomputable def pointDist (a b : ℝ × ℝ) : ℝ :=
  Real.sqrt ((b.1 - a.1) ^ 2 + (b.2 - a.2) ^ 2)

/-- Signed area of the triangle (a, b, c), positive for counter-clockwise
winding. -/
noncomputable def signedArea (a b c : ℝ × ℝ) : ℝ :=
  ((b.1 - a.1) * (c.2 - a.2) - (c.1 - a.1) * (b.2 - a.2)) / 2

/-- Claim C2: for every center position, color and side length, the Triangle
constructor produces exactly the three vertices of an upward-pointing
equilateral triangle — one vertex directly below the center by `sideLength`
and two vertices above-left and above-right at
(px ± sideLength·cos 30°, py + sideLength·sin 30°), where cos 30° = √3/2 and
sin 30° = 1/2 — and its index list is exactly [0, 1, 2]. -/
theorem claim_C2_triangle_vertices (gl0 : GLState) (shader : Shader) (px py : ℝ)
    (color : List ℝ) (sideLength : ℝ) :
    ((Triangle.construct gl0 shader (px, py) color sideLength).1.vertices =
        [px, py - sideLength,
         px + sideLength * Real.cos (deg2rad 30), py + sideLength * Real.sin (deg2rad 30),
         px - sideLength * Real.cos (deg2rad 30), py + sideLength * Real.sin (deg2rad 30)] ∧
      Real.cos (deg2rad 30) = Real.sqrt 3 / 2 ∧
      Real.sin (deg2rad 30) = 1 / 2) ∧
    (Triangle.construct gl0 shader (px, py) color sideLength).1.indices = [0, 1, 2] := by
  refine ⟨⟨?_, cos_deg2rad_30, sin_deg2rad_30⟩, ?_⟩ <;>
    simp [triangleConstruct_state, triVertices, cos_deg2rad_30, sin_deg2rad_30]

/-- Claim C3: for every position and every sideLength > 0, the three vertices
generated by the Triangle constructor are all at distance exactly `sideLength`
from the center position, and the signed area of the triangle taken in index
order [0,1,2] is strictly positive (counter-clockwise winding). -/
theorem claim_C3_equilateral (gl0 : GLState) (shader : Shader) (px py : ℝ)
    (color : List ℝ) (sideLength : ℝ) (h : 0 < sideLength) :
    (pointDist (px, py)
        (vertexAt (Triangle.construct gl0 shader (px, py) color sideLength).1 0) = sideLength ∧
     pointDist (px, py)
        (vertexAt (Triangle.construct gl0 shader (px, py) color sideLength).1 1) = sideLength ∧
     pointDist (px, py)
        (vertexAt (Triangle.construct gl0 shader (px, py) color sideLength).1 2) = sideLength) ∧
    0 < signedArea
        (vertexAt (Triangle.construct gl0 shader (px, py) color sideLength).1 0)
        (vertexAt (Triangle.construct gl0 shader (px, py) color sideLength).1 1)
        (vertexAt (Triangle.construct gl0 shader (px, py) color sideLength).1 2) := by
  have h3 : Real.sqrt 3 ^ 2 = 3 := Real.sq_sqrt (by norm_num)
  have hs : 0 < Real.sqrt 3 := Real.sqrt_pos.mpr (by norm_num)
  have hv0 : vertexAt (Triangle.construct gl0 shader (px, py) color sideLength).1 0 =
      (px, py - sideLength) := by
    rw [triangleConstruct_state]; simp [vertexAt, triVertices]
  have hv1 : vertexAt (Triangle.construct gl0 shader (px, py) color sideLength).1 1 =
      (px + sideLength * (Real.sqrt 3 / 2), py + sideLength * (1 / 2)) := by
    rw [triangleConstruct_state]; simp [vertexAt, triVertices]
  have hv2 : vertexAt (Triangle.construct gl0 shader (px, py) color sideLength).1 2 =
      (px - sideLength * (Real.sqrt 3 / 2), py + sideLength * (1 / 2)) := by
    rw [triangleConstruct_state]; simp [vertexAt, triVertices]
  rw [hv0, hv1, hv2]
  refine ⟨⟨?_, ?_, ?_⟩, ?_⟩
  · show Real.sqrt ((px - px) ^ 2 + (py - sideLength - py) ^ 2) = sideLength
    have e : (px - px) ^ 2 + (py - sideLength - py) ^ 2 = sideLength ^ 2 := by ring
    rw [e, Real.sqrt_sq h.le]
  · show Real.sqrt ((px + sideLength * (Real.sqrt 3 / 2) - px) ^ 2 +
        (py + sideLength * (1 / 2) - py) ^ 2) = sideLength
    have e : (px + sideLength * (Real.sqrt 3 / 2) - px) ^ 2 +
        (py + sideLength * (1 / 2) - py) ^ 2 = sideLength ^ 2 := by
      linear_combination (sideLength ^ 2 / 4) * h3
    rw [e, Real.sqrt_sq h.le]
  · show Real.sqrt ((px - sideLength * (Real.sqrt 3 / 2) - px) ^ 2 +
        (py + sideLength * (1 / 2) - py) ^ 2) = sideLength
    have e : (px - sideLength * (Real.sqrt 3 / 2) - px) ^ 2 +
        (py + sideLength * (1 / 2) - py) ^ 2 = sideLength ^ 2 := by
      linear_combination (sideLength ^ 2 / 4) * h3
    rw [e, Real.sqrt_sq h.le]
  · have e : signedArea (px, py - sideLength)
        (px + sideLength * (Real.sqrt 3 / 2), py + sideLength * (1 / 2))
        (px - sideLength * (Real.sqrt 3 / 2), py + sideLength * (1 / 2)) =
        3 / 4 * (Real.sqrt 3 * (sideLength * sideLength)) := by
      simp only [signedArea]; ring
    rw [e]
    exact mul_pos (by norm_num) (mul_pos hs (mul_pos h h))

/-- Witness for C3 at position (0,0), sideLength 1. -/
theorem claim_C3_witness :
    (0 : ℝ) < 1 ∧
    ((pointDist ((0 : ℝ), (0 : ℝ))
        (vertexAt (Triangle.construct GLState.init ⟨0⟩ (0, 0) [] 1).1 0) = 1 ∧
      pointDist ((0 : ℝ), (0 : ℝ))
        (vertexAt (Triangle.construct GLState.init ⟨0⟩ (0, 0) [] 1).1 1) = 1 ∧
      pointDist ((0 : ℝ), (0 : ℝ))
        (vertexAt (Triangle.construct GLState.init ⟨0⟩ (0, 0) [] 1).1 2) = 1) ∧
     0 < signedArea
        (vertexAt (Triangle.construct GLState.init ⟨0⟩ (0, 0) [] 1).1 0)
        (vertexAt (Triangle.construct GLState.init ⟨0⟩ (0, 0) [] 1).1 1)
        (vertexAt (Triangle.construct GLState.init ⟨0⟩ (0, 0) [] 1).1 2)) :=
  ⟨one_pos, claim_C3_equilateral GLState.init ⟨0⟩ 0 0 [] 1 one_pos⟩

/-! ## Command classifiers -/

/-- Frame-observable commands: viewport configuration, clears and draws. -/
def isObservable : GLCmd → Bool
  | GLCmd.viewport _ _ _ _ => true
  | GLCmd.clearColor _ _ _ _ => true
  | GLCmd.clear => true
  | GLCmd.drawElements _ _ _ => true
  | _ => false

/-- Draw commands. -/
def isDraw : GLCmd → Bool
  | GLCmd.drawElements _ _ _ => true
  | _ => false

/-- Device resource creation commands. -/
def isCreate : GLCmd → Bool
  | GLCmd.createBuffer _ => true
  | GLCmd.createVertexArray _ => true
  | _ => false

/-- Device resource release commands. -/
def isRelease : GLCmd → Bool
  | GLCmd.deleteBuffer _ => true
  | GLCmd.deleteVertexArray _ => true
  | _ => false

/-- Index (Uint16Array) upload commands. -/
def isIndexUpload : GLCmd → Bool
  | GLCmd.bufferDataU16 _ _ => true
  | _ => false

/-- The draw command a shape's render call issues. -/
def drawCmdOf (sh : Shape) : GLCmd :=
  GLCmd.drawElements sh.draw_mode sh.num_elements IndexType.unsignedShort

theorem renderTrace_filter_isDraw (sh : Shape) :
    (Shape.renderTrace sh).filter isDraw = [drawCmdOf sh] := by
  simp [Shape.renderTrace, isDraw, drawCmdOf]

theorem renderTrace_filter_isObservable (sh : Shape) :
    (Shape.renderTrace sh).filter isObservable = [drawCmdOf sh] := by
  simp [Shape.renderTrace, isObservable, drawCmdOf]

theorem flatten_renderTrace_filter_isDraw (shs : List Shape) :
    ((shs.map Shape.renderTrace).flatten.filter isDraw) = shs.map drawCmdOf := by
  induction shs with
  | nil => simp
  | cons sh rest ih => simp [List.filter_append, renderTrace_filter_isDraw, ih]

theorem flatten_renderTrace_filter_isObservable (shs : List Shape) :
    ((shs.map Shape.renderTrace).flatten.filter isObservable) = shs.map drawCmdOf := by
  induction shs with
  | nil => simp
  | cons sh rest ih => simp [List.filter_append, renderTrace_filter_isObservable, ih]

/-! ## Claims C5, C6, C7, C8, C10 -/

/-- Counterexample to claim C5: constructing a `Shape` with an odd-length
vertex list, an empty index list and element count 0 does not fail — the JS
constructor has no validation — and it creates and registers three device
resources (two buffers and one vertex array object). -/
theorem claim_C5_counterexample :
    (Shape.construct GLState.init ⟨0⟩ [(0 : ℝ)] [] [] DrawMode.triangles 0).2.nextId = 3 ∧
    (Shape.construct GLState.init ⟨0⟩ [(0 : ℝ)] [] [] DrawMode.triangles 0).2.trace.filter
        isCreate =
      [GLCmd.createBuffer 0, GLCmd.createBuffer 1, GLCmd.createVertexArray 2] ∧
    ¬((Shape.construct GLState.init ⟨0⟩ [(0 : ℝ)] [] [] DrawMode.triangles 0).2.trace.filter
        isCreate = []) := by
  refine ⟨?_, ?_, ?_⟩ <;>
    simp [Shape.construct_state, GLState.init, constructTrace, createVBOTrace,
      createIBOTrace, createVAOTrace, isCreate]

/-- Claim C5 as amended: Shape construction performs no validation at all.
For every input — including odd-length vertices, empty indices and zero
element count — construction succeeds, stores the arguments unchanged, and
always creates and registers exactly three device resources (vertex buffer,
index buffer, vertex-array object). -/
theorem claim_C5_no_validation (gl0 : GLState) (shader : Shader) (vertices : List ℝ)
    (indices : List ℕ) (color : List ℝ) (draw_mode : DrawMode) (num_elements : ℕ) :
    (Shape.construct gl0 shader vertices indices color draw_mode num_elements).1.vertices =
        vertices ∧
    (Shape.construct gl0 shader vertices indices color draw_mode num_elements).1.indices =
        indices ∧
    (Shape.construct gl0 shader vertices indices color draw_mode
        num_elements).1.num_elements = num_elements ∧
    (Shape.construct gl0 shader vertices indices color draw_mode num_elements).2.nextId =
        gl0.nextId + 3 ∧
    (Shape.construct gl0 shader vertices indices color draw_mode
        num_elements).2.trace.filter isCreate =
      gl0.trace.filter isCreate ++
        [GLCmd.createBuffer gl0.nextId, GLCmd.createBuffer (gl0.nextId + 1),
         GLCmd.createVertexArray (gl0.nextId + 2)] := by
  refine ⟨?_, ?_, ?_, ?_, ?_⟩ <;>
    simp [Shape.construct_state, constructTrace, createVBOTrace, createIBOTrace,
      createVAOTrace, isCreate, List.filter_append]

/-- Counterexample to claim C6: after adding one triangle (which registers
three device resources) and then calling `clearShapes`, the shape list is
empty but the device state is exactly what it was before the clear — no
release command (deleteBuffer / deleteVertexArray) was ever issued, so the
shapes' device handles are not released on clear. -/
theorem claim_C6_counterexample :
    (runOps [AppOp.addTriangle ⟨0⟩ ((0 : ℝ), (0 : ℝ)) 1, AppOp.clearShapes]).1.shapes = [] ∧
    (runOps [AppOp.addTriangle ⟨0⟩ ((0 : ℝ), (0 : ℝ)) 1, AppOp.clearShapes]).2 =
      (runOps [AppOp.addTriangle ⟨0⟩ ((0 : ℝ), (0 : ℝ)) 1]).2 ∧
    ((runOps [AppOp.addTriangle ⟨0⟩ ((0 : ℝ), (0 : ℝ)) 1,
        AppOp.clearShapes]).2.trace.filter isCreate).length = 3 ∧
    (runOps [AppOp.addTriangle ⟨0⟩ ((0 : ℝ), (0 : ℝ)) 1,
        AppOp.clearShapes]).2.trace.filter isRelease = [] := by
  refine ⟨?_, ?_, ?_, ?_⟩ <;>
    simp [runOps, applyOp, WebGlApp.new, WebGlApp.addTriangle, WebGlApp.clearShapes,
      triangleConstruct_state, GLState.init, constructTrace, createVBOTrace,
      createIBOTrace, createVAOTrace, isCreate, isRelease]

/-- Claim C6 as amended: `clearShapes` leaves the Scene with an empty ordered
shape collection, but it performs no device call at all: the device state
(including the command trace) is returned unchanged, so the discarded Shapes'
device-resident handles are dropped without being released. -/
theorem claim_C6_clear_shapes (app : WebGlApp) (s : GLState) :
    applyOp (app, s) AppOp.clearShapes = (⟨[]⟩, s) ∧ app.clearShapes.shapes = [] := by
  exact ⟨rfl, rfl⟩

/-- Claim C7: every operation that binds device state leaves the device
unbound on return.  `Shape.render` ends with its vertex-array and
element-buffer slots unbound and the array-buffer slot untouched; each setup
step of construction (`createVBO`, `createIBO`, `createVAO`) ends with every
slot it bound unbound and the others untouched; and the whole `Shape`
constructor leaves all three slots unbound. -/
theorem claim_C7_no_dangling_bindings :
    (∀ (sh : Shape) (s : GLState),
      (Shape.render sh s).boundVAO = none ∧ (Shape.render sh s).boundElement = none ∧
      (Shape.render sh s).boundArray = s.boundArray) ∧
    (∀ (vertices : List ℝ) (s : GLState),
      (Shape.createVBO vertices s).2.boundArray = none ∧
      (Shape.createVBO vertices s).2.boundElement = s.boundElement ∧
      (Shape.createVBO vertices s).2.boundVAO = s.boundVAO) ∧
    (∀ (indices : List ℕ) (s : GLState),
      (Shape.createIBO indices s).2.boundElement = none ∧
      (Shape.createIBO indices s).2.boundArray = s.boundArray ∧
      (Shape.createIBO indices s).2.boundVAO = s.boundVAO) ∧
    (∀ (shader : Shader) (vertices_buffer num_components : ℕ) (s : GLState),
      (Shape.createVAO shader vertices_buffer num_components s).2.boundVAO = none ∧
      (Shape.createVAO shader vertices_buffer num_components s).2.boundArray = none ∧
      (Shape.createVAO shader vertices_buffer num_components s).2.boundElement =
        s.boundElement) ∧
    (∀ (gl0 : GLState) (shader : Shader) (vertices : List ℝ) (indices : List ℕ)
        (color : List ℝ) (draw_mode : DrawMode) (num_elements : ℕ),
      (Shape.construct gl0 shader vertices indices color draw_mode
          num_elements).2.boundArray = none ∧
      (Shape.construct gl0 shader vertices indices color draw_mode
          num_elements).2.boundElement = none ∧
      (Shape.construct gl0 shader vertices indices color draw_mode
          num_elements).2.boundVAO = none) := by
  refine ⟨fun sh s => ?_, fun vertices s => ?_, fun indices s => ?_,
    fun shader vb nc s => ?_, fun gl0 shader vertices indices color dm ne => ?_⟩ <;>
    simp [Shape.render_state, Shape.createVBO_state, Shape.createIBO_state,
      Shape.createVAO_state, Shape.construct_state]

/-- Claim C8: `WebGlApp.render` is deterministic over unchanged Scene state:
calling it twice in succession with the same app and dimensions emits two
structurally identical device command sequences (the delta each call appends
to the trace is the same list of commands). -/
theorem claim_C8_render_deterministic (app : WebGlApp) (w h : Int) (s : GLState) :
    (app.render w h s).trace.drop s.trace.length =
      (app.render w h (app.render w h s)).trace.drop (app.render w h s).trace.length := by
  conv_lhs => rw [appRender_state]
  conv_rhs => rw [appRender_state app w h (app.render w h s)]
  simp [List.drop_left]

/-- Claim C10: index data is uploaded as 16-bit unsigned integers — the
`createIBO` upload payload is the indices reduced modulo 2^16 — and drawing
uses the UNSIGNED_SHORT element type; the uploaded values equal the given
indices exactly when every index is below 65536, and an index of 65536
silently wraps to 0. -/
theorem claim_C10_uint16_upload :
    (∀ (indices : List ℕ) (s : GLState),
      (Shape.createIBO indices s).2.trace =
        s.trace ++
          [GLCmd.createBuffer s.nextId,
           GLCmd.bindBuffer BufferTarget.elementArrayBuffer (some s.nextId),
           GLCmd.bufferDataU16 BufferTarget.elementArrayBuffer
             (indices.map (fun i => i % 65536)),
           GLCmd.bindBuffer BufferTarget.elementArrayBuffer none]) ∧
    (∀ (sh : Shape) (s : GLState),
      (Shape.render sh s).trace.filter isDraw =
        s.trace.filter isDraw ++
          [GLCmd.drawElements sh.draw_mode sh.num_elements IndexType.unsignedShort]) ∧
    (∀ indices : List ℕ,
      indices.map (fun i => i % 65536) = indices ↔ ∀ i ∈ indices, i < 65536) ∧
    (Shape.createIBO [65536] GLState.init).2.trace.filter isIndexUpload =
      [GLCmd.bufferDataU16 BufferTarget.elementArrayBuffer [0]] := by
  refine ⟨?_, ?_, ?_, ?_⟩
  · intro indices s
    simp [Shape.createIBO_state, createIBOTrace]
  · intro sh s
    simp [Shape.render_state, List.filter_append, renderTrace_filter_isDraw, drawCmdOf]
  · intro indices
    induction indices with
    | nil => simp
    | cons a t ih =>
        simp only [List.map_cons, List.cons.injEq, List.mem_cons, ih]
        constructor
        · rintro ⟨ha, ht⟩ i hi
          rcases hi with rfl | hi
          · omega
          · exact ht i hi
        · intro hall
          exact ⟨Nat.mod_eq_of_lt (hall a (Or.inl rfl)),
            fun i hi => hall i (Or.inr hi)⟩
  · simp [Shape.createIBO_state, createIBOTrace, GLState.init, isIndexUpload]

/-! ## Claims C1, C4, C9 -/

theorem frameTrace_filter_isObservable (app : WebGlApp) (w h : Int) :
    (frameTrace app w h).filter isObservable =
      [GLCmd.viewport 0 0 w h,
       GLCmd.clearColor (aggieBlue.getD 0 0) (aggieBlue.getD 1 0) (aggieBlue.getD 2 0) 1,
       GLCmd.clear] ++ app.shapes.map drawCmdOf := by
  rw [frameTrace, List.filter_append, flatten_renderTrace_filter_isObservable]
  simp [isObservable]

theorem frameTrace_filter_isDraw (app : WebGlApp) (w h : Int) :
    (frameTrace app w h).filter isDraw = app.shapes.map drawCmdOf := by
  rw [frameTrace, List.filter_append, flatten_renderTrace_filter_isDraw]
  simp [isDraw]

/-- Claim C1: every `WebGlApp.render` call emits exactly one frame appended to
the trace: one viewport command covering (0,0,w,h), one clear to the fixed
background color, then the per-shape commands in insertion order with exactly
one draw per stored shape; an empty scene's frame is exactly the viewport
command and the clear.  In particular, after `addTriangle(pos=(0,0),
sideLength=1)`, `render(800,600)` observably emits one viewport (0,0,800,600),
one clear to the background color, and one draw with topology TRIANGLES and
element count 3. -/
theorem claim_C1_render_frame :
    (∀ (app : WebGlApp) (w h : Int) (s : GLState),
      (app.render w h s).trace = s.trace ++ frameTrace app w h ∧
      frameTrace app w h =
        [GLCmd.viewport 0 0 w h,
         GLCmd.clearColor (aggieBlue.getD 0 0) (aggieBlue.getD 1 0) (aggieBlue.getD 2 0) 1,
         GLCmd.clear] ++ (app.shapes.map Shape.renderTrace).flatten ∧
      (frameTrace app w h).filter isObservable =
        [GLCmd.viewport 0 0 w h,
         GLCmd.clearColor (aggieBlue.getD 0 0) (aggieBlue.getD 1 0) (aggieBlue.getD 2 0) 1,
         GLCmd.clear] ++ app.shapes.map drawCmdOf) ∧
    (∀ (w h : Int),
      frameTrace WebGlApp.new w h =
        [GLCmd.viewport 0 0 w h,
         GLCmd.clearColor (aggieBlue.getD 0 0) (aggieBlue.getD 1 0) (aggieBlue.getD 2 0) 1,
         GLCmd.clear]) ∧
    (∀ (shader : Shader) (s0 : GLState),
      ((WebGlApp.new.addTriangle s0 shader (0, 0) 1).1.render 800 600
          (WebGlApp.new.addTriangle s0 shader (0, 0) 1).2).trace.filter isObservable =
        (WebGlApp.new.addTriangle s0 shader (0, 0) 1).2.trace.filter isObservable ++
          [GLCmd.viewport 0 0 800 600,
           GLCmd.clearColor (aggieBlue.getD 0 0) (aggieBlue.getD 1 0) (aggieBlue.getD 2 0) 1,
           GLCmd.clear,
           GLCmd.drawElements DrawMode.triangles 3 IndexType.unsignedShort]) := by
  refine ⟨fun app w h s => ⟨?_, ?_, frameTrace_filter_isObservable app w h⟩,
    fun w h => ?_, fun shader s0 => ?_⟩
  · simp [appRender_state]
  · simp [frameTrace]
  · simp [frameTrace, WebGlApp.new]
  · rw [appRender_state]
    simp only [List.filter_append, frameTrace_filter_isObservable]
    simp [WebGlApp.addTriangle, WebGlApp.new, triangleConstruct_state, drawCmdOf]

/-- The geometry-determining fields of a stored shape, used to state that the
scene records the N `addTriangle` calls in call order. -/
noncomputable def shapeGeom (sh : Shape) : List ℝ × List ℕ × DrawMode × ℕ × List ℝ :=
  (sh.vertices, sh.indices, sh.draw_mode, sh.num_elements, sh.color)

/-- The geometry an `addTriangle` call with the given arguments must store. -/
noncomputable def callGeom (c : Shader × ((ℝ × ℝ) × ℝ)) :
    List ℝ × List ℕ × DrawMode × ℕ × List ℝ :=
  (triVertices c.2.1 c.2.2, [0, 1, 2], DrawMode.triangles, 3, aggieGold)

/-- Perform a sequence of `addTriangle` calls. -/
noncomputable def addCallsFrom :
    WebGlApp × GLState → List (Shader × ((ℝ × ℝ) × ℝ)) → WebGlApp × GLState
  | p, [] => p
  | (app, s), c :: rest => addCallsFrom (app.addTriangle s c.1 c.2.1 c.2.2) rest

theorem addCallsFrom_shapes_map (calls : List (Shader × ((ℝ × ℝ) × ℝ))) :
    ∀ (app : WebGlApp) (s : GLState),
      (addCallsFrom (app, s) calls).1.shapes.map shapeGeom =
        app.shapes.map shapeGeom ++ calls.map callGeom := by
  induction calls with
  | nil => intro app s; simp [addCallsFrom]
  | cons c rest ih =>
      intro app s
      simp [addCallsFrom, WebGlApp.addTriangle, triangleConstruct_state, ih,
        shapeGeom, callGeom]

/-- Claim C4: `addTriangle` is strictly append-only — the new state's shape
list is the old list with the freshly constructed triangle appended, so all
prior shapes keep their positions; N calls from an empty Scene yield exactly
N shapes whose stored geometry matches the N calls in call order; `render`
issues its draw commands in exactly this insertion order; and `clearShapes`
takes any state to the state with 0 shapes. -/
theorem claim_C4_append_only :
    (∀ (app : WebGlApp) (gl0 : GLState) (shader : Shader) (position : ℝ × ℝ)
        (sideLength : ℝ),
      (app.addTriangle gl0 shader position sideLength).1.shapes =
        app.shapes ++ [(Triangle.construct gl0 shader position aggieGold sideLength).1]) ∧
    (∀ calls : List (Shader × ((ℝ × ℝ) × ℝ)),
      (addCallsFrom (WebGlApp.new, GLState.init) calls).1.shapes.length = calls.length ∧
      (addCallsFrom (WebGlApp.new, GLState.init) calls).1.shapes.map shapeGeom =
        calls.map callGeom) ∧
    (∀ (app : WebGlApp) (w h : Int) (s : GLState),
      (app.render w h s).trace.filter isDraw =
        s.trace.filter isDraw ++ app.shapes.map drawCmdOf) ∧
    (∀ app : WebGlApp, app.clearShapes.shapes = []) := by
  refine ⟨fun app gl0 shader position sideLength => ?_, fun calls => ⟨?_, ?_⟩,
    fun app w h s => ?_, fun app => rfl⟩
  · simp [WebGlApp.addTriangle]
  · have hmap := addCallsFrom_shapes_map calls WebGlApp.new GLState.init
    have := congrArg List.length hmap
    simpa [WebGlApp.new] using this
  · simpa [WebGlApp.new] using addCallsFrom_shapes_map calls WebGlApp.new GLState.init
  · rw [appRender_state]
    simp [List.filter_append, frameTrace_filter_isDraw]

/-- The data-model invariant of the spec, as a decidable check on a shape:
every index refers to one of the length(vertices)/2 stored 2D vertices, and
the element count does not exceed the number of indices. -/
def Shape.invariantHolds (sh : Shape) : Bool :=
  sh.indices.all (fun i => decide (i < sh.vertices.length / 2)) &&
    decide (sh.num_elements ≤ sh.indices.length)

theorem triangle_invariantHolds (gl0 : GLState) (shader : Shader) (position : ℝ × ℝ)
    (color : List ℝ) (sideLength : ℝ) :
    Shape.invariantHolds (Triangle.construct gl0 shader position color sideLength).1 =
      true := by
  simp [triangleConstruct_state, Shape.invariantHolds, triVertices]

theorem applyOp_preserves_invariant (p : WebGlApp × GLState) (op : AppOp)
    (hp : p.1.shapes.all Shape.invariantHolds = true) :
    (applyOp p op).1.shapes.all Shape.invariantHolds = true := by
  obtain ⟨app, s⟩ := p
  cases op with
  | addTriangle shader position sideLength =>
      simp only [applyOp, WebGlApp.addTriangle, triangleConstruct_state]
      simp only [List.all_append, List.all_cons, List.all_nil, Bool.and_true]
      exact (Bool.and_eq_true _ _).mpr
        ⟨hp, triangle_invariantHolds s shader position aggieGold sideLength⟩
  | clearShapes => simp [applyOp, WebGlApp.clearShapes]
  | render w h => simpa [applyOp] using hp

theorem foldl_preserves_invariant (ops : List AppOp) :
    ∀ p : WebGlApp × GLState, p.1.shapes.all Shape.invariantHolds = true →
      (ops.foldl applyOp p).1.shapes.all Shape.invariantHolds = true := by
  induction ops with
  | nil => intro p hp; simpa using hp
  | cons op rest ih =>
      intro p hp
      exact ih (applyOp p op) (applyOp_preserves_invariant p op hp)

/-- Claim C9: every shape stored in a reachable `WebGlApp` state satisfies the
data-model invariant — each index is below length(vertices)/2 and the element
count is at most the number of indices — because the only constructed shapes
are triangles and a shape is never mutated after construction; and every
triangle has indices [0,1,2], six vertex scalars and element count 3. -/
theorem claim_C9_data_model_invariant :
    (∀ ops : List AppOp, (runOps ops).1.shapes.all Shape.invariantHolds = true) ∧
    (∀ (gl0 : GLState) (shader : Shader) (position : ℝ × ℝ) (color : List ℝ)
        (sideLength : ℝ),
      (Triangle.construct gl0 shader position color sideLength).1.indices = [0, 1, 2] ∧
      (Triangle.construct gl0 shader position color sideLength).1.vertices.length = 6 ∧
      (Triangle.construct gl0 shader position color sideLength).1.num_elements = 3) := by
  refine ⟨fun ops => ?_, fun gl0 shader position color sideLength => ?_⟩
  · exact foldl_preserves_invariant ops (WebGlApp.new, GLState.init) (by simp [WebGlApp.new])
  · refine ⟨?_, ?_, ?_⟩ <;> simp [triangleConstruct_state, triVertices]

end Assignment0
